import Mathlib

/-!
Verification of the AidAuditor custody ledger (src/Smart Contract/AidAuditor.sol).

The contract state relevant to one asset is embedded as `AssetWorld`; uint256
values are modelled as `Nat` (SafeMath reverts on over/underflow, and every
subtraction below is guarded by the invariant proved in this file, so the `Nat`
semantics coincides with the contract on all reachable states; where a claim
quantifies over an arbitrary funding amount, an explicit bound keeps the
multiplication inside uint256 range).  Addresses and bytes32 values are `Nat`
with 0 as the zero sentinel; geo tags are `String` (the contract compares
keccak hashes of the strings, modelled as string equality).  Reverting calls
are `Except.error`; the platform value transfer is modelled as succeeding (a
failing transfer reverts the whole operation, leaving the state unchanged).
-/

namespace AidAuditor

/-- The ordered custody stages, AidAuditor.sol lines 23-29. -/
inductive Stage where
  | Warehouse
  | Transport
  | Hub
  | LocalTransport
  | Beneficiary
deriving DecidableEq, Repr

/-- Numeric value of a stage, as in the Solidity enum ordering. -/
def Stage.toNat : Stage → Nat
  | .Warehouse => 0
  | .Transport => 1
  | .Hub => 2
  | .LocalTransport => 3
  | .Beneficiary => 4

/-- The Asset struct, AidAuditor.sol lines 32-44. -/
structure Asset where
  allocatedFunds : Nat
  releasedFunds : Nat
  scansCount : Nat
  donorTimestamp : Nat
  assetDescription : String
  currentGeoTag : String
  currentStage : Stage
  isFlagged : Bool
  isRefunded : Bool
  donor : Nat
  assignedNGO : Nat
deriving DecidableEq, Repr

/-- The ScanLog struct, AidAuditor.sol lines 46-54. -/
structure ScanLog where
  timestamp : Nat
  scanner : Nat
  geoTag : String
  stage : Stage
  photoHash : Nat
  anomalyFlagged : Bool
  notes : String
deriving DecidableEq, Repr

/-- The Milestone struct, AidAuditor.sol lines 56-60. -/
structure Milestone where
  stage : Stage
  releasePercentage : Nat
  isReleased : Bool
deriving DecidableEq, Repr

/-- One payout performed by `_checkAndReleaseMilestone`: which milestone
(by list index), to whom, how much, and the value of `releasedFunds`
right after the payout was recorded. -/
structure ReleaseRec where
  idx : Nat
  recipient : Nat
  amount : Nat
  newReleased : Nat
deriving DecidableEq, Repr

/-- Revert reasons of the contract, named after the require messages and the
error taxonomy of the specification. -/
inductive LedgerError where
  | Unauthorized
  | NotDonor
  | AssetFlagged
  | AlreadyRefunded
  | NotEligible
  | NothingToRefund
  | InsufficientEscrow
  | InvalidAmount
  | InvalidState
  | ZeroFunding
  | UnregisteredNGO
  | InvalidAssetID
  | InvalidNGO
  | InvalidRecipient
  | NoBalance
deriving DecidableEq, Repr

/-- `REFUND_LOCK_PERIOD = 30 days` (in seconds), AidAuditor.sol line 65. -/
def refundLockPeriod : Nat := 2592000

/-- The per-asset portion of the contract state: the asset record, its
milestone list, its scan history, and the platform parameter
`minScansForFirstPayout` that governs its payouts. -/
structure AssetWorld where
  asset : Asset
  milestones : List Milestone
  history : List ScanLog
  minScans : Nat
deriving DecidableEq, Repr

/-- `_setupDefaultMilestones`, AidAuditor.sol lines 283-301:
Hub at 40 percent, then Beneficiary at 60 percent. -/
def defaultMilestones : List Milestone :=
  [⟨Stage.Hub, 40, false⟩, ⟨Stage.Beneficiary, 60, false⟩]

/-- `initAsset`, AidAuditor.sol lines 167-213, restricted to one asset (the
duplicate-identifier check lives in the global mapping and is not part of the
per-asset state).  `ngoHasRole` is the platform answer to
`hasRole(NGO_ROLE, assignedNGO)`; `minScans` is the current value of
`minScansForFirstPayout`. -/
def initAsset (assetID : Nat) (description : String) (assignedNGO : Nat)
    (initialGeoTag : String) (value donor timestamp : Nat) (ngoHasRole : Bool)
    (minScans : Nat) : Except LedgerError AssetWorld :=
  if assetID = 0 then .error .InvalidAssetID
  else if value = 0 then .error .ZeroFunding
  else if assignedNGO = 0 then .error .InvalidNGO
  else if ngoHasRole = false then .error .UnregisteredNGO
  else .ok
    { asset :=
      { allocatedFunds := value
        releasedFunds := 0
        scansCount := 1
        donorTimestamp := timestamp
        assetDescription := description
        currentGeoTag := initialGeoTag
        currentStage := Stage.Warehouse
        isFlagged := false
        isRefunded := false
        donor := donor
        assignedNGO := assignedNGO }
      milestones := defaultMilestones
      history := [⟨timestamp, donor, initialGeoTag, Stage.Warehouse, 0, false, "Asset initialized"⟩]
      minScans := minScans }

/-- The three anomaly checks of `scanAsset`, AidAuditor.sol lines 232-248,
evaluated in source order over a single boolean accumulator. -/
def scanAnomaly (a : Asset) (newGeoTag : String) (newStage : Stage)
    (photoHash : Nat) : Bool :=
  let d0 := false
  let d1 := if newStage.toNat < a.currentStage.toNat then true else d0
  let d2 := if a.currentGeoTag = newGeoTag ∧ newStage ≠ a.currentStage then true else d1
  let d3 := if (newStage = Stage.Hub ∨ newStage = Stage.Beneficiary) ∧ photoHash = 0
    then true else d2
  d3

/-- The milestone loop of `_checkAndReleaseMilestone`, AidAuditor.sol lines
310-337.  `alloc`, `stage`, `scans` are the asset fields read inside the loop
(fixed during it), `rel` is the running `releasedFunds`, `idx` the index of
the first milestone of `ms` in the full milestone list.  Returns the final
`releasedFunds`, the updated milestone list, and the payouts performed in
order. -/
def releaseLoop (alloc : Nat) (stage : Stage) (scans minScans ngo : Nat) :
    Nat → Nat → List Milestone → Nat × List Milestone × List ReleaseRec
  | rel, _, [] => (rel, [], [])
  | rel, idx, m :: ms =>
    if m.stage.toNat ≤ stage.toNat ∧ m.isReleased = false ∧ minScans ≤ scans then
      let nominal := alloc * m.releasePercentage / 100
      let amount := if alloc < rel + nominal then alloc - rel else nominal
      if 0 < amount then
        let res := releaseLoop alloc stage scans minScans ngo (rel + amount) (idx + 1) ms
        (res.1, { m with isReleased := true } :: res.2.1,
          ⟨idx, ngo, amount, rel + amount⟩ :: res.2.2)
      else
        let res := releaseLoop alloc stage scans minScans ngo rel (idx + 1) ms
        (res.1, m :: res.2.1, res.2.2)
    else
      let res := releaseLoop alloc stage scans minScans ngo rel (idx + 1) ms
      (res.1, m :: res.2.1, res.2.2)

/-- `scanAsset`, AidAuditor.sol lines 223-278: role gate, flag gate, anomaly
evaluation, auto-flagging, state update, history append, then the milestone
release engine on the updated asset. -/
def scanAsset (w : AssetWorld) (callerIsScanner : Bool) (scanner timestamp : Nat)
    (newGeoTag : String) (newStage : Stage) (photoHash : Nat) (notes : String) :
    Except LedgerError (AssetWorld × List ReleaseRec) :=
  if callerIsScanner = false then .error .Unauthorized
  else if w.asset.isFlagged then .error .AssetFlagged
  else
    let a := w.asset
    let anomaly := scanAnomaly a newGeoTag newStage photoHash
    let a1 : Asset :=
      { a with
        isFlagged := if anomaly then true else a.isFlagged
        scansCount := a.scansCount + 1
        currentGeoTag := newGeoTag
        currentStage := newStage }
    let entry : ScanLog := ⟨timestamp, scanner, newGeoTag, newStage, photoHash, anomaly, notes⟩
    let res := releaseLoop a1.allocatedFunds a1.currentStage a1.scansCount w.minScans
      a1.assignedNGO a1.releasedFunds 0 w.milestones
    .ok ({ w with
            asset := { a1 with releasedFunds := res.1 }
            milestones := res.2.1
            history := w.history ++ [entry] }, res.2.2)

/-- `manualReleaseFunds`, AidAuditor.sol lines 343-363 (auditor gate, escrow
bound, positivity, then payout bookkeeping; the recipient is arbitrary and
only receives value, so it does not appear in the per-asset state). -/
def manualReleaseFunds (w : AssetWorld) (callerIsAuditor : Bool)
    (recipient amount : Nat) : Except LedgerError AssetWorld :=
  if callerIsAuditor = false then .error .Unauthorized
  else if w.asset.allocatedFunds - w.asset.releasedFunds < amount then .error .InsufficientEscrow
  else if amount = 0 then .error .InvalidAmount
  else .ok { w with asset := { w.asset with releasedFunds := w.asset.releasedFunds + amount } }

/-- `flagAsset`, AidAuditor.sol lines 370-377. -/
def flagAsset (w : AssetWorld) (callerIsAuditor : Bool) : Except LedgerError AssetWorld :=
  if callerIsAuditor = false then .error .Unauthorized
  else .ok { w with asset := { w.asset with isFlagged := true } }

/-- `unflagAsset`, AidAuditor.sol lines 382-389. -/
def unflagAsset (w : AssetWorld) (callerIsAuditor : Bool) : Except LedgerError AssetWorld :=
  if callerIsAuditor = false then .error .Unauthorized
  else .ok { w with asset := { w.asset with isFlagged := false } }

/-- `requestRefund`, AidAuditor.sol lines 394-421.  Returns the updated world
and the amount transferred back to the donor. -/
def requestRefund (w : AssetWorld) (caller now : Nat) :
    Except LedgerError (AssetWorld × Nat) :=
  let a := w.asset
  if caller ≠ a.donor then .error .NotDonor
  else if a.isRefunded then .error .AlreadyRefunded
  else if ¬ (a.isFlagged = true ∨
      (a.donorTimestamp + refundLockPeriod < now ∧
        a.currentStage.toNat < Stage.Beneficiary.toNat)) then .error .NotEligible
  else if a.allocatedFunds - a.releasedFunds = 0 then .error .NothingToRefund
  else .ok ({ w with asset := { a with isRefunded := true, allocatedFunds := a.releasedFunds } },
    a.allocatedFunds - a.releasedFunds)

/-- `updateMinScans`, AidAuditor.sol lines 440-443. -/
def updateMinScans (w : AssetWorld) (callerIsAdmin : Bool) (newMin : Nat) :
    Except LedgerError AssetWorld :=
  if callerIsAdmin = false then .error .Unauthorized
  else if newMin = 0 then .error .InvalidAmount
  else .ok { w with minScans := newMin }

/-- `getAssetProgress`, AidAuditor.sol lines 483-498; the SafeMath division by
`allocatedFunds` reverts when it is zero. -/
def getAssetProgress (w : AssetWorld) : Except LedgerError (Nat × Nat) :=
  if w.asset.allocatedFunds = 0 then .error .InvalidState
  else .ok (w.asset.currentStage.toNat * 100 / Stage.Beneficiary.toNat,
    w.asset.releasedFunds * 100 / w.asset.allocatedFunds)

/-- One externally invoked transition of an existing asset, labelled with the
milestone payouts it performed (empty for every operation except `scanAsset`,
whose payouts come from the release loop). -/
inductive LStep : AssetWorld → List ReleaseRec → AssetWorld → Prop
  | scan {w w2 : AssetWorld} {recs : List ReleaseRec} (sc : Bool)
      (scanner timestamp : Nat) (g : String) (st : Stage) (ph : Nat) (notes : String) :
      scanAsset w sc scanner timestamp g st ph notes = Except.ok (w2, recs) →
      LStep w recs w2
  | manual {w w2 : AssetWorld} (aud : Bool) (recipient amount : Nat) :
      manualReleaseFunds w aud recipient amount = Except.ok w2 → LStep w [] w2
  | refund {w w2 : AssetWorld} (caller now amt : Nat) :
      requestRefund w caller now = Except.ok (w2, amt) → LStep w [] w2
  | flag {w w2 : AssetWorld} (aud : Bool) :
      flagAsset w aud = Except.ok w2 → LStep w [] w2
  | unflag {w w2 : AssetWorld} (aud : Bool) :
      unflagAsset w aud = Except.ok w2 → LStep w [] w2
  | setMin {w w2 : AssetWorld} (adm : Bool) (n : Nat) :
      updateMinScans w adm n = Except.ok w2 → LStep w [] w2

/-- The per-asset states reachable from a successful `initAsset` by any
sequence of successful contract calls. -/
inductive Reachable : AssetWorld → Prop
  | init (assetID : Nat) (description : String) (assignedNGO : Nat)
      (initialGeoTag : String) (value donor timestamp : Nat) (ngoHasRole : Bool)
      (minScans : Nat) (w : AssetWorld) :
      initAsset assetID description assignedNGO initialGeoTag value donor timestamp
        ngoHasRole minScans = Except.ok w →
      Reachable w
  | step (w w2 : AssetWorld) (recs : List ReleaseRec) :
      Reachable w → LStep w recs w2 → Reachable w2

/-! ### Mutation/transfer ordering traces

For the ordering claim, the observable actions of each value-moving operation
are listed as events in the order the corresponding statements appear in the
source. -/

/-- Zero or more successful contract calls in sequence: the reflexive and
transitive closure of `LStep`. -/
inductive Steps : AssetWorld → AssetWorld → Prop
  | refl (w : AssetWorld) : Steps w w
  | step {w w2 w3 : AssetWorld} {recs : List ReleaseRec} :
      LStep w recs w2 → Steps w2 w3 → Steps w w3

/-- An observable action of a value-moving operation: a state mutation or an
external value transfer. -/
inductive Event where
  | markMilestoneReleased (idx : Nat)
  | setReleasedFunds (v : Nat)
  | setAllocatedFunds (v : Nat)
  | setIsRefunded (b : Bool)
  | transferValue (recipient amount : Nat)
  | addNgoTotal (recipient amount : Nat)
  | addTotalFundsReleased (amount : Nat)
deriving DecidableEq, Repr

/-- Is this event the external value transfer? -/
def Event.isTransfer : Event → Bool
  | .transferValue _ _ => true
  | _ => false

/-- Is this event an update of the NGO or platform running totals? -/
def Event.isTotalsUpdate : Event → Bool
  | .addNgoTotal _ _ => true
  | .addTotalFundsReleased _ => true
  | _ => false

/-- Is this event the marking of a milestone as released? -/
def Event.isMilestoneMark : Event → Bool
  | .markMilestoneReleased _ => true
  | _ => false

/-- Is this event a per-asset fund-accounting mutation (the bookkeeping that
removes the payout headroom and so prevents a duplicate payout)? -/
def Event.isFundAccounting : Event → Bool
  | .markMilestoneReleased _ => true
  | .setReleasedFunds _ => true
  | .setAllocatedFunds _ => true
  | .setIsRefunded _ => true
  | _ => false

/-- The statements executed for one positive milestone payout,
AidAuditor.sol lines 322-334, in source order: mark the milestone, bump
`releasedFunds`, transfer, then update NGO and platform totals. -/
def milestoneBlock (r : ReleaseRec) : List Event :=
  [.markMilestoneReleased r.idx, .setReleasedFunds r.newReleased,
    .transferValue r.recipient r.amount, .addNgoTotal r.recipient r.amount,
    .addTotalFundsReleased r.amount]

/-- The full event trace of `_checkAndReleaseMilestone` given the payouts it
performed in loop order. -/
def milestoneReleaseTrace (recs : List ReleaseRec) : List Event :=
  (recs.map milestoneBlock).flatten

/-- The statements of the `manualReleaseFunds` success path,
AidAuditor.sol lines 354-360, in source order. -/
def manualReleaseTrace (a : Asset) (recipient amount : Nat) : List Event :=
  [.setReleasedFunds (a.releasedFunds + amount), .transferValue recipient amount,
    .addNgoTotal recipient amount, .addTotalFundsReleased amount]

/-- The statements of the `requestRefund` success path,
AidAuditor.sol lines 413-418, in source order. -/
def refundTrace (a : Asset) : List Event :=
  [.setIsRefunded true, .setAllocatedFunds a.releasedFunds,
    .transferValue a.donor (a.allocatedFunds - a.releasedFunds)]

/-- The ordering discipline asserted by the specification: every event that
follows a transfer event is itself a transfer or (the stated exception) a
milestone mark; in particular no totals or escrow mutation follows a
transfer. -/
def transferLastExceptMark : List Event → Bool
  | [] => true
  | e :: rest =>
    (!e.isTransfer || rest.all fun e2 => e2.isTransfer || e2.isMilestoneMark)
      && transferLastExceptMark rest

/-- Does some state mutation (any non-transfer event) occur after a transfer
event? -/
def mutationAfterTransfer : List Event → Bool
  | [] => false
  | e :: rest =>
    (e.isTransfer && rest.any fun e2 => !e2.isTransfer) || mutationAfterTransfer rest

/-- Helper for `transfersGuarded`: `prev` is the event immediately before the
remaining trace. -/
def transfersGuardedFrom : Option Event → List Event → Bool
  | _, [] => true
  | prev, e :: rest =>
    (!e.isTransfer ||
      (match prev with
        | some p => p.isFundAccounting
        | none => false))
      && transfersGuardedFrom (some e) rest

/-- Every transfer in the trace is immediately preceded by a fund-accounting
mutation. -/
def transfersGuarded (tr : List Event) : Bool :=
  transfersGuardedFrom none tr

/-- Every transfer in the trace is immediately followed by the NGO-total and
platform-total updates for the same recipient and amount. -/
def totalsFollowTransfers : List Event → Bool
  | .transferValue r a :: .addNgoTotal r2 a2 :: .addTotalFundsReleased a3 :: rest =>
    decide (r = r2) && decide (a = a2) && decide (a = a3) && totalsFollowTransfers rest
  | .transferValue _ _ :: _ => false
  | _ :: rest => totalsFollowTransfers rest
  | [] => true

/-! ### Contract-level state

Only `emergencyWithdraw` needs the cross-asset view: the association lists
mirror the contract mappings (with their key sets), and `balance` is the
native value held by the contract. -/

/-- The full contract storage plus its held native balance. -/
structure ContractState where
  assets : List (Nat × Asset)
  milestonesMap : List (Nat × List Milestone)
  historyMap : List (Nat × List ScanLog)
  ngoTotals : List (Nat × Nat)
  totalAssetsTracked : Nat
  totalFundsAllocated : Nat
  totalFundsReleased : Nat
  balance : Nat
deriving DecidableEq, Repr

/-- The value still held in escrow, summed over all assets. -/
def escrowSum (s : ContractState) : Nat :=
  (s.assets.map fun p => p.2.allocatedFunds - p.2.releasedFunds).sum

/-- `emergencyWithdraw`, AidAuditor.sol lines 526-536: gated on
`DEFAULT_ADMIN_ROLE`, requires a nonzero recipient and a positive balance,
and transfers the entire held balance without touching any other storage.
Returns the new state and the amount transferred. -/
def emergencyWithdraw (s : ContractState) (callerIsDefaultAdmin : Bool)
    (recipient : Nat) : Except LedgerError (ContractState × Nat) :=
  if callerIsDefaultAdmin = false then .error .Unauthorized
  else if recipient = 0 then .error .InvalidRecipient
  else if s.balance = 0 then .error .NoBalance
  else .ok ({ s with balance := 0 }, s.balance)

/-! ### Concrete states used as evaluation points -/

/-- The asset obtained by donor 9 funding 1000 for NGO 5 at time 100. -/
def exAsset : Asset :=
  { allocatedFunds := 1000
    releasedFunds := 0
    scansCount := 1
    donorTimestamp := 100
    assetDescription := "aid"
    currentGeoTag := "g0"
    currentStage := Stage.Warehouse
    isFlagged := false
    isRefunded := false
    donor := 9
    assignedNGO := 5 }

/-- The world produced by `initAsset 1 "aid" 5 "g0" 1000 9 100 true 2`. -/
def exWorld : AssetWorld :=
  { asset := exAsset
    milestones := defaultMilestones
    history := [⟨100, 9, "g0", Stage.Warehouse, 0, false, "Asset initialized"⟩]
    minScans := 2 }

/-- `exWorld` after the scan `scanAsset exWorld true 8 200 "g1" Hub 77 "n"`:
the Hub milestone pays 400. -/
def exWorldAfterHub : AssetWorld :=
  { asset :=
      { exAsset with
        releasedFunds := 400
        scansCount := 2
        currentGeoTag := "g1"
        currentStage := Stage.Hub }
    milestones := [⟨Stage.Hub, 40, true⟩, ⟨Stage.Beneficiary, 60, false⟩]
    history := exWorld.history ++ [⟨200, 8, "g1", Stage.Hub, 77, false, "n"⟩]
    minScans := 2 }

/-- `exWorldAfterHub` after the scan to Beneficiary at time 300: the second
milestone pays the remaining 600. -/
def exWorldAfterBen : AssetWorld :=
  { asset :=
      { exAsset with
        releasedFunds := 1000
        scansCount := 3
        currentGeoTag := "g2"
        currentStage := Stage.Beneficiary }
    milestones := [⟨Stage.Hub, 40, true⟩, ⟨Stage.Beneficiary, 60, true⟩]
    history := exWorldAfterHub.history ++ [⟨300, 8, "g2", Stage.Beneficiary, 77, false, "n"⟩]
    minScans := 2 }

/-- `exWorld` after an auditor flags the asset. -/
def exWorldFlagged : AssetWorld :=
  { exWorld with asset := { exAsset with isFlagged := true } }

/-- `exWorldFlagged` after the donor obtains a refund of the full 1000:
the asset still exists but `allocatedFunds` has become zero. -/
def exWorldRefunded : AssetWorld :=
  { exWorldFlagged with
    asset := { exAsset with isFlagged := true, isRefunded := true, allocatedFunds := 0 } }

/-- A world whose Hub milestone has already been paid out. -/
def exWorldReleased : AssetWorld :=
  { exWorld with
    asset :=
      { exAsset with
        releasedFunds := 400
        scansCount := 2
        currentStage := Stage.Hub
        currentGeoTag := "g1" }
    milestones := [⟨Stage.Hub, 40, true⟩, ⟨Stage.Beneficiary, 60, false⟩] }

/-- `exWorldReleased` after an auditor flags it. -/
def exWorldReleasedFlagged : AssetWorld :=
  { exWorldReleased with asset := { exWorldReleased.asset with isFlagged := true } }

/-- `exWorldReleased` after a scanner reports a regression back to Warehouse
(scan at time 300 from location g2 with no photo): the asset is auto-flagged
and no funds move. -/
def exWorldRegressed : AssetWorld :=
  { exWorldReleased with
    asset :=
      { exWorldReleased.asset with
        isFlagged := true
        scansCount := 3
        currentGeoTag := "g2"
        currentStage := Stage.Warehouse }
    history := exWorldReleased.history ++ [⟨300, 8, "g2", Stage.Warehouse, 0, true, "n"⟩] }

/-- `exWorldReleased` after the donor takes the 600 refund once the 30-day
lock has passed: `allocatedFunds` is frozen at the released 400. -/
def exWorldPostRefund : AssetWorld :=
  { exWorldReleased with
    asset :=
      { exWorldReleased.asset with
        isRefunded := true
        allocatedFunds := 400 } }

/-- `exWorldPostRefund` after one further successful scan to Beneficiary:
the scan is recorded but no funds move. -/
def exWorldPostRefundScan : AssetWorld :=
  { exWorldPostRefund with
    asset :=
      { exWorldPostRefund.asset with
        scansCount := 3
        currentGeoTag := "g2"
        currentStage := Stage.Beneficiary }
    history := exWorldPostRefund.history ++ [⟨999, 8, "g2", Stage.Beneficiary, 77, false, "n"⟩] }

/-- `exWorldPostRefundScan` after a second successful scan (to location g3 at
time 1000): again the scan is recorded but no funds move. -/
def exWorldPostRefundScan2 : AssetWorld :=
  { exWorldPostRefundScan with
    asset :=
      { exWorldPostRefundScan.asset with
        scansCount := 4
        currentGeoTag := "g3" }
    history := exWorldPostRefundScan.history ++
      [⟨1000, 8, "g3", Stage.Beneficiary, 77, false, "n"⟩] }

/-- A contract state holding exactly the escrow of `exWorldReleased`. -/
def exContract : ContractState :=
  { assets := [(1, exWorldReleased.asset)]
    milestonesMap := [(1, exWorldReleased.milestones)]
    historyMap := [(1, exWorldReleased.history)]
    ngoTotals := [(5, 400)]
    totalAssetsTracked := 1
    totalFundsAllocated := 1000
    totalFundsReleased := 400
    balance := 600 }

/-- `exContract` after `emergencyWithdraw` drained its balance. -/
def exContractDrained : ContractState := { exContract with balance := 0 }

/-! ### Helper lemmas about the release loop -/

/-- The clamp in the release loop keeps `releasedFunds` at or below
`allocatedFunds`. -/
theorem releaseLoop_le (alloc : Nat) (stage : Stage) (scans minScans ngo : Nat)
    (ms : List Milestone) (rel idx : Nat) (h : rel ≤ alloc) :
    (releaseLoop alloc stage scans minScans ngo rel idx ms).1 ≤ alloc := by
  induction ms generalizing rel idx with
  | nil => simpa [releaseLoop] using h
  | cons m ms ih =>
    by_cases hg : m.stage.toNat ≤ stage.toNat ∧ m.isReleased = false ∧ minScans ≤ scans
    · by_cases hc : alloc < rel + alloc * m.releasePercentage / 100
      · by_cases hp : 0 < alloc - rel
        · simp only [releaseLoop, if_pos hg, if_pos hc, if_pos hp]
          exact ih (rel + (alloc - rel)) (idx + 1) (by omega)
        · simp only [releaseLoop, if_pos hg, if_pos hc, if_neg hp]
          exact ih rel (idx + 1) h
      · by_cases hp : 0 < alloc * m.releasePercentage / 100
        · simp only [releaseLoop, if_pos hg, if_neg hc, if_pos hp]
          exact ih (rel + alloc * m.releasePercentage / 100) (idx + 1) (by omega)
        · simp only [releaseLoop, if_pos hg, if_neg hc, if_neg hp]
          exact ih rel (idx + 1) h
    · simp only [releaseLoop, if_neg hg]
      exact ih rel (idx + 1) h

/-- Once `releasedFunds` has reached `allocatedFunds`, the release loop is
inert: every clamped amount is zero, so nothing is paid, no milestone is
marked, and the state is returned unchanged. -/
theorem releaseLoop_frozen (alloc : Nat) (stage : Stage) (scans minScans ngo : Nat)
    (ms : List Milestone) (rel idx : Nat) (h : alloc ≤ rel) :
    releaseLoop alloc stage scans minScans ngo rel idx ms = (rel, ms, []) := by
  induction ms generalizing rel idx with
  | nil => simp [releaseLoop]
  | cons m ms ih =>
    by_cases hg : m.stage.toNat ≤ stage.toNat ∧ m.isReleased = false ∧ minScans ≤ scans
    · by_cases hc : alloc < rel + alloc * m.releasePercentage / 100
      · have hp : ¬ 0 < alloc - rel := by omega
        simp only [releaseLoop, if_pos hg, if_pos hc, if_neg hp, ih rel (idx + 1) h]
      · have hp : ¬ 0 < alloc * m.releasePercentage / 100 := by omega
        simp only [releaseLoop, if_pos hg, if_neg hc, if_neg hp, ih rel (idx + 1) h]
    · simp only [releaseLoop, if_neg hg, ih rel (idx + 1) h]

/-- Every payout recorded by the release loop concerns a milestone at or
beyond the starting index. -/
theorem releaseLoop_recs_ge (alloc : Nat) (stage : Stage) (scans minScans ngo : Nat)
    (ms : List Milestone) (rel idx : Nat) :
    ∀ r ∈ (releaseLoop alloc stage scans minScans ngo rel idx ms).2.2, idx ≤ r.idx := by
  induction ms generalizing rel idx with
  | nil => simp [releaseLoop]
  | cons m ms ih =>
    by_cases hg : m.stage.toNat ≤ stage.toNat ∧ m.isReleased = false ∧ minScans ≤ scans
    · by_cases hp : 0 < (if alloc < rel + alloc * m.releasePercentage / 100
          then alloc - rel else alloc * m.releasePercentage / 100)
      · simp only [releaseLoop, if_pos hg, if_pos hp]
        intro r hr
        rcases List.mem_cons.mp hr with hr | hr
        · subst hr; exact Nat.le_refl idx
        · exact Nat.le_of_succ_le (ih _ (idx + 1) r hr)
      · simp only [releaseLoop, if_pos hg, if_neg hp]
        intro r hr
        exact Nat.le_of_succ_le (ih rel (idx + 1) r hr)
    · simp only [releaseLoop, if_neg hg]
      intro r hr
      exact Nat.le_of_succ_le (ih rel (idx + 1) r hr)

/-- A milestone already marked released is left untouched by the release loop
and receives no further payout. -/
theorem releaseLoop_released_stable (alloc : Nat) (stage : Stage)
    (scans minScans ngo : Nat) (ms : List Milestone) (rel idx i : Nat) (m : Milestone)
    (hm : ms[i]? = some m) (hrel : m.isReleased = true) :
    (releaseLoop alloc stage scans minScans ngo rel idx ms).2.1[i]? = some m ∧
    ∀ r ∈ (releaseLoop alloc stage scans minScans ngo rel idx ms).2.2, r.idx ≠ idx + i := by
  induction ms generalizing rel idx i with
  | nil => simp at hm
  | cons m0 ms ih =>
    cases i with
    | zero =>
      have hm0 : m0 = m := by simpa using hm
      subst hm0
      have hg : ¬ (m0.stage.toNat ≤ stage.toNat ∧ m0.isReleased = false ∧ minScans ≤ scans) := by
        simp [hrel]
      simp only [releaseLoop, if_neg hg]
      refine ⟨by simp, ?_⟩
      intro r hr
      have := releaseLoop_recs_ge alloc stage scans minScans ngo ms rel (idx + 1) r hr
      omega
    | succ i =>
      have hm2 : ms[i]? = some m := by simpa using hm
      by_cases hg : m0.stage.toNat ≤ stage.toNat ∧ m0.isReleased = false ∧ minScans ≤ scans
      · by_cases hp : 0 < (if alloc < rel + alloc * m0.releasePercentage / 100
            then alloc - rel else alloc * m0.releasePercentage / 100)
        · obtain ⟨ih1, ih2⟩ := ih _ (idx + 1) i hm2
          simp only [releaseLoop, if_pos hg, if_pos hp]
          refine ⟨by simpa using ih1, ?_⟩
          intro r hr
          rcases List.mem_cons.mp hr with hr | hr
          · subst hr; simp
          · have := ih2 r hr; omega
        · obtain ⟨ih1, ih2⟩ := ih rel (idx + 1) i hm2
          simp only [releaseLoop, if_pos hg, if_neg hp]
          refine ⟨by simpa using ih1, ?_⟩
          intro r hr
          have := ih2 r hr; omega
      · obtain ⟨ih1, ih2⟩ := ih rel (idx + 1) i hm2
        simp only [releaseLoop, if_neg hg]
        refine ⟨by simpa using ih1, ?_⟩
        intro r hr
        have := ih2 r hr; omega

/-! ### Inversion lemmas for the operations -/

/-- Characterization of a successful `initAsset`. -/
theorem initAsset_ok (assetID : Nat) (description : String) (assignedNGO : Nat)
    (initialGeoTag : String) (value donor timestamp : Nat) (ngoHasRole : Bool)
    (minScans : Nat) (w : AssetWorld)
    (h : initAsset assetID description assignedNGO initialGeoTag value donor timestamp
      ngoHasRole minScans = Except.ok w) :
    w = { asset :=
          { allocatedFunds := value
            releasedFunds := 0
            scansCount := 1
            donorTimestamp := timestamp
            assetDescription := description
            currentGeoTag := initialGeoTag
            currentStage := Stage.Warehouse
            isFlagged := false
            isRefunded := false
            donor := donor
            assignedNGO := assignedNGO }
          milestones := defaultMilestones
          history := [⟨timestamp, donor, initialGeoTag, Stage.Warehouse, 0, false,
            "Asset initialized"⟩]
          minScans := minScans } ∧ 0 < value := by
  simp only [initAsset] at h
  split_ifs at h with h1 h2 h3 h4
  injection h with h5
  exact ⟨h5.symm, by omega⟩

/-- Characterization of a successful `scanAsset`. -/
theorem scanAsset_ok (w : AssetWorld) (sc : Bool) (scanner timestamp : Nat) (g : String)
    (st : Stage) (ph : Nat) (notes : String) (w2 : AssetWorld) (recs : List ReleaseRec)
    (h : scanAsset w sc scanner timestamp g st ph notes = Except.ok (w2, recs)) :
    sc = true ∧ w.asset.isFlagged = false ∧
    w2 = { w with
            asset := { w.asset with
              isFlagged := if scanAnomaly w.asset g st ph then true else w.asset.isFlagged
              scansCount := w.asset.scansCount + 1
              currentGeoTag := g
              currentStage := st
              releasedFunds := (releaseLoop w.asset.allocatedFunds st
                (w.asset.scansCount + 1) w.minScans w.asset.assignedNGO
                w.asset.releasedFunds 0 w.milestones).1 }
            milestones := (releaseLoop w.asset.allocatedFunds st (w.asset.scansCount + 1)
              w.minScans w.asset.assignedNGO w.asset.releasedFunds 0 w.milestones).2.1
            history := w.history ++
              [⟨timestamp, scanner, g, st, ph, scanAnomaly w.asset g st ph, notes⟩] } ∧
    recs = (releaseLoop w.asset.allocatedFunds st (w.asset.scansCount + 1) w.minScans
      w.asset.assignedNGO w.asset.releasedFunds 0 w.milestones).2.2 := by
  by_cases h1 : sc = false
  · simp only [scanAsset, if_pos h1] at h
    exact Except.noConfusion h
  · by_cases h2 : w.asset.isFlagged = true
    · simp only [scanAsset, if_neg h1, if_pos h2] at h
      exact Except.noConfusion h
    · simp only [scanAsset, if_neg h1, if_neg h2] at h
      injection h with h3
      rw [Prod.mk.injEq] at h3
      refine ⟨by revert h1; cases sc <;> simp,
        by revert h2; cases w.asset.isFlagged <;> simp, h3.1.symm, h3.2.symm⟩

/-- Characterization of a successful `manualReleaseFunds`. -/
theorem manualReleaseFunds_ok (w : AssetWorld) (aud : Bool) (recipient amount : Nat)
    (w2 : AssetWorld) (h : manualReleaseFunds w aud recipient amount = Except.ok w2) :
    aud = true ∧ amount ≤ w.asset.allocatedFunds - w.asset.releasedFunds ∧ 0 < amount ∧
    w2 = { w with asset :=
      { w.asset with releasedFunds := w.asset.releasedFunds + amount } } := by
  simp only [manualReleaseFunds] at h
  split_ifs at h with h1 h2 h3
  injection h with h4
  exact ⟨by revert h1; cases aud <;> simp, by omega, by omega, h4.symm⟩

/-- Characterization of a successful `flagAsset`. -/
theorem flagAsset_ok (w : AssetWorld) (aud : Bool) (w2 : AssetWorld)
    (h : flagAsset w aud = Except.ok w2) :
    w2 = { w with asset := { w.asset with isFlagged := true } } := by
  simp only [flagAsset] at h
  split_ifs at h with h1
  injection h with h2
  exact h2.symm

/-- Characterization of a successful `unflagAsset`. -/
theorem unflagAsset_ok (w : AssetWorld) (aud : Bool) (w2 : AssetWorld)
    (h : unflagAsset w aud = Except.ok w2) :
    w2 = { w with asset := { w.asset with isFlagged := false } } := by
  simp only [unflagAsset] at h
  split_ifs at h with h1
  injection h with h2
  exact h2.symm

/-- Characterization of a successful `updateMinScans`. -/
theorem updateMinScans_ok (w : AssetWorld) (adm : Bool) (n : Nat) (w2 : AssetWorld)
    (h : updateMinScans w adm n = Except.ok w2) :
    w2 = { w with minScans := n } := by
  simp only [updateMinScans] at h
  split_ifs at h with h1 h2
  injection h with h3
  exact h3.symm

/-- Full characterization of `requestRefund` success, used both for the refund
claim and for the frame claim about scans after a refund. -/
theorem requestRefund_ok_iff (w : AssetWorld) (caller now : Nat) (w2 : AssetWorld)
    (amt : Nat) :
    requestRefund w caller now = Except.ok (w2, amt) ↔
      (caller = w.asset.donor ∧ w.asset.isRefunded = false ∧
        (w.asset.isFlagged = true ∨
          (w.asset.donorTimestamp + refundLockPeriod < now ∧
            w.asset.currentStage.toNat < Stage.Beneficiary.toNat)) ∧
        0 < w.asset.allocatedFunds - w.asset.releasedFunds ∧
        amt = w.asset.allocatedFunds - w.asset.releasedFunds ∧
        w2 = { w with
                asset := { w.asset with
                  isRefunded := true
                  allocatedFunds := w.asset.releasedFunds } }) := by
  constructor
  · intro h
    simp only [requestRefund] at h
    split_ifs at h with h1 h2 h3 h4
    injection h with h5
    rw [Prod.mk.injEq] at h5
    refine ⟨not_not.mp h1, ?_, h3, by omega, h5.2.symm, h5.1.symm⟩
    revert h2; cases w.asset.isRefunded <;> simp
  · rintro ⟨hc, hr, helig, hpos, hamt, hw⟩
    subst hamt hw
    simp only [requestRefund]
    rw [if_neg (fun hn => hn hc), if_neg (by simp [hr]),
      if_neg (not_not_intro helig), if_neg (by omega)]

/-- A scan that reports a stage strictly earlier than the current one is
always classified as anomalous. -/
theorem scanAnomaly_of_regression (a : Asset) (g : String) (st : Stage) (ph : Nat)
    (h : st.toNat < a.currentStage.toNat) : scanAnomaly a g st ph = true := by
  simp [scanAnomaly, h]

/-! ### Claim theorems -/

/-- Claim C1: in every reachable per-asset state `releasedFunds ≤
allocatedFunds`.  `Reachable` is closed under every fund-moving operation of
the contract (`initAsset`, the milestone release triggered by `scanAsset`,
`manualReleaseFunds`, `requestRefund`), so each of them preserves the
inequality. -/
theorem released_never_exceeds_allocated (w : AssetWorld) (h : Reachable w) :
    w.asset.releasedFunds ≤ w.asset.allocatedFunds := by
  induction h with
  | init assetID description assignedNGO initialGeoTag value donor timestamp
      ngoHasRole minScans w hinit =>
    obtain ⟨hw, -⟩ := initAsset_ok _ _ _ _ _ _ _ _ _ _ hinit
    subst hw
    simp
  | step w w2 recs hr hstep ih =>
    cases hstep with
    | scan sc scanner ts g st ph notes hok =>
      obtain ⟨-, -, hw2, -⟩ := scanAsset_ok _ _ _ _ _ _ _ _ _ _ hok
      subst hw2
      simpa using releaseLoop_le _ st _ _ _ _ _ 0 ih
    | manual aud recipient amount hok =>
      obtain ⟨-, hle, hpos, hw2⟩ := manualReleaseFunds_ok _ _ _ _ _ hok
      subst hw2
      simp only []
      omega
    | refund caller now amt hok =>
      obtain ⟨-, -, -, -, -, hw2⟩ := (requestRefund_ok_iff w caller now w2 amt).mp hok
      subst hw2
      simp
    | flag aud hok =>
      have hw2 := flagAsset_ok _ _ _ hok
      subst hw2
      simpa using ih
    | unflag aud hok =>
      have hw2 := unflagAsset_ok _ _ _ hok
      subst hw2
      simpa using ih
    | setMin adm n hok =>
      have hw2 := updateMinScans_ok _ _ _ _ hok
      subst hw2
      simpa using ih

/-- Witness for C1 at a concrete reachable state. -/
theorem released_never_exceeds_allocated_witness :
    exWorld.asset.releasedFunds ≤ exWorld.asset.allocatedFunds :=
  released_never_exceeds_allocated exWorld
    (Reachable.init 1 "aid" 5 "g0" 1000 9 100 true 2 exWorld rfl)

/-- Claim C5: a successful scan reporting a stage strictly earlier than the
current one always leaves the asset flagged; while the asset is flagged every
`scanAsset` call from a scanner fails with `AssetFlagged` (an error produces
no new state, so nothing changes); `unflagAsset` clears the flag, after which
the `AssetFlagged` gate no longer applies. -/
theorem regression_flags_and_flag_blocks_scans :
    (∀ (w : AssetWorld) (scanner ts : Nat) (g : String) (st : Stage) (ph : Nat)
      (notes : String) (w2 : AssetWorld) (recs : List ReleaseRec),
      scanAsset w true scanner ts g st ph notes = Except.ok (w2, recs) →
      st.toNat < w.asset.currentStage.toNat → w2.asset.isFlagged = true)
    ∧ (∀ (w : AssetWorld) (scanner ts : Nat) (g : String) (st : Stage) (ph : Nat)
      (notes : String), w.asset.isFlagged = true →
      scanAsset w true scanner ts g st ph notes = Except.error LedgerError.AssetFlagged)
    ∧ (∀ w w2 : AssetWorld, unflagAsset w true = Except.ok w2 →
      w2.asset.isFlagged = false) := by
  refine ⟨?_, ?_, ?_⟩
  · intro w scanner ts g st ph notes w2 recs hok hreg
    obtain ⟨-, -, hw2, -⟩ := scanAsset_ok _ _ _ _ _ _ _ _ _ _ hok
    subst hw2
    simp [scanAnomaly_of_regression w.asset g st ph hreg]
  · intro w scanner ts g st ph notes hflag
    simp [scanAsset, hflag]
  · intro w w2 hok
    have hw2 := unflagAsset_ok _ _ _ hok
    subst hw2
    simp

/-- Witness for C5: the flagged `exWorldFlagged` rejects a scan with
`AssetFlagged`, and a concrete regression scan on `exWorldReleased` leaves it
flagged. -/
theorem regression_flags_and_flag_blocks_scans_witness :
    scanAsset exWorldFlagged true 8 200 "g9" Stage.Hub 77 "n" =
      Except.error LedgerError.AssetFlagged ∧
    exWorldRegressed.asset.isFlagged = true :=
  ⟨regression_flags_and_flag_blocks_scans.2.1 exWorldFlagged 8 200 "g9" Stage.Hub 77 "n" rfl,
    regression_flags_and_flag_blocks_scans.1 exWorldReleased 8 300 "g2" Stage.Warehouse 0 "n"
      exWorldRegressed [] (by rfl) (by decide)⟩

/-- Claim C6: for every milestone already marked released, any single
successful operation keeps it released with identical fields (so the
false-to-true transition happens at most once and is never reverted) and pays
nothing for it again (no payout record carries its index). -/
theorem milestone_released_at_most_once (w : AssetWorld) (recs : List ReleaseRec)
    (w2 : AssetWorld) (h : LStep w recs w2) (i : Nat) (m : Milestone)
    (hm : w.milestones[i]? = some m) (hrel : m.isReleased = true) :
    w2.milestones[i]? = some m ∧ ∀ r ∈ recs, r.idx ≠ i := by
  cases h with
  | scan sc scanner ts g st ph notes hok =>
    obtain ⟨-, -, hw2, hrecs⟩ := scanAsset_ok _ _ _ _ _ _ _ _ _ _ hok
    subst hw2
    subst hrecs
    have := releaseLoop_released_stable w.asset.allocatedFunds st (w.asset.scansCount + 1)
      w.minScans w.asset.assignedNGO w.milestones w.asset.releasedFunds 0 i m hm hrel
    simpa using this
  | manual aud recipient amount hok =>
    obtain ⟨-, -, -, hw2⟩ := manualReleaseFunds_ok _ _ _ _ _ hok
    subst hw2
    simp [hm]
  | refund caller now amt hok =>
    obtain ⟨-, -, -, -, -, hw2⟩ := (requestRefund_ok_iff w caller now w2 amt).mp hok
    subst hw2
    simp [hm]
  | flag aud hok =>
    have hw2 := flagAsset_ok _ _ _ hok
    subst hw2
    simp [hm]
  | unflag aud hok =>
    have hw2 := unflagAsset_ok _ _ _ hok
    subst hw2
    simp [hm]
  | setMin adm n hok =>
    have hw2 := updateMinScans_ok _ _ _ _ hok
    subst hw2
    simp [hm]

/-- Witness for C6 at a concrete step: flagging `exWorldReleased` keeps its
already-released Hub milestone untouched and pays nothing. -/
theorem milestone_released_at_most_once_witness :
    exWorldReleasedFlagged.milestones[0]? = some ⟨Stage.Hub, 40, true⟩ ∧
    ∀ r ∈ ([] : List ReleaseRec), r.idx ≠ 0 :=
  milestone_released_at_most_once exWorldReleased [] exWorldReleasedFlagged
    (@LStep.flag exWorldReleased exWorldReleasedFlagged true rfl) 0
    ⟨Stage.Hub, 40, true⟩ (by rfl) (by rfl)

/-- Counterexample to claim C7: `allocatedFunds = 0` is reachable for an
existing (donor-owned) asset — create it with funding 1000, have an auditor
flag it, and let the donor take the full refund; `requestRefund` then sets
`allocatedFunds := releasedFunds = 0`, and `getAssetProgress` actually hits
its zero-division guard. -/
theorem allocated_zero_reachable :
    Reachable exWorldRefunded ∧ exWorldRefunded.asset.donor ≠ 0 ∧
    exWorldRefunded.asset.allocatedFunds = 0 ∧
    getAssetProgress exWorldRefunded = Except.error LedgerError.InvalidState := by
  refine ⟨?_, by decide, by rfl, by rfl⟩
  exact Reachable.step exWorldFlagged exWorldRefunded []
    (Reachable.step exWorld exWorldFlagged []
      (Reachable.init 1 "aid" 5 "g0" 1000 9 100 true 2 exWorld rfl)
      (@LStep.flag exWorld exWorldFlagged true rfl))
    (@LStep.refund exWorldFlagged exWorldRefunded 9 101 1000 rfl)

/-- Claim C7 (amended): the funding precondition makes `allocatedFunds`
positive only for assets that have never been refunded; a refund of an asset
with no released funds drives `allocatedFunds` to zero, so the zero-division
guard of `getAssetProgress` is reachable, but only on refunded assets. -/
theorem allocated_positive_unless_refunded (w : AssetWorld) (h : Reachable w)
    (hnr : w.asset.isRefunded = false) : 0 < w.asset.allocatedFunds := by
  induction h with
  | init assetID description assignedNGO initialGeoTag value donor timestamp
      ngoHasRole minScans w hinit =>
    obtain ⟨hw, hv⟩ := initAsset_ok _ _ _ _ _ _ _ _ _ _ hinit
    subst hw
    simpa using hv
  | step w w2 recs hr hstep ih =>
    cases hstep with
    | scan sc scanner ts g st ph notes hok =>
      obtain ⟨-, -, hw2, -⟩ := scanAsset_ok _ _ _ _ _ _ _ _ _ _ hok
      subst hw2
      exact ih (by simpa using hnr)
    | manual aud recipient amount hok =>
      obtain ⟨-, -, -, hw2⟩ := manualReleaseFunds_ok _ _ _ _ _ hok
      subst hw2
      exact ih (by simpa using hnr)
    | refund caller now amt hok =>
      obtain ⟨-, -, -, -, -, hw2⟩ := (requestRefund_ok_iff w caller now w2 amt).mp hok
      subst hw2
      simp at hnr
    | flag aud hok =>
      have hw2 := flagAsset_ok _ _ _ hok
      subst hw2
      exact ih (by simpa using hnr)
    | unflag aud hok =>
      have hw2 := unflagAsset_ok _ _ _ hok
      subst hw2
      exact ih (by simpa using hnr)
    | setMin adm n hok =>
      have hw2 := updateMinScans_ok _ _ _ _ hok
      subst hw2
      exact ih (by simpa using hnr)

/-- Witness for the amended C7 at a concrete reachable non-refunded state. -/
theorem allocated_positive_unless_refunded_witness :
    0 < exWorld.asset.allocatedFunds :=
  allocated_positive_unless_refunded exWorld
    (Reachable.init 1 "aid" 5 "g0" 1000 9 100 true 2 exWorld rfl) rfl

/-- The anomaly flag computed by a scan is exactly the disjunction of the
three checks. -/
theorem scanAnomaly_iff (a : Asset) (g : String) (st : Stage) (ph : Nat) :
    scanAnomaly a g st ph = true ↔
      (st.toNat < a.currentStage.toNat ∨
        (a.currentGeoTag = g ∧ st ≠ a.currentStage) ∨
        ((st = Stage.Hub ∨ st = Stage.Beneficiary) ∧ ph = 0)) := by
  by_cases h3 : (st = Stage.Hub ∨ st = Stage.Beneficiary) ∧ ph = 0
  · simp [scanAnomaly, h3]
  · by_cases h2 : a.currentGeoTag = g ∧ st ≠ a.currentStage
    · simp [scanAnomaly, h3, h2]
    · by_cases h1 : st.toNat < a.currentStage.toNat
      · simp [scanAnomaly, h3, h2, h1]
      · simp [scanAnomaly, h3, h2, h1]

/-- Claim C3: `requestRefund` succeeds exactly when the caller is the donor,
the asset is not already refunded, eligibility holds (flagged, or strictly
past the 30-day lock while the stage is before Beneficiary), and the
remaining escrow is positive; on success it marks the asset refunded, sets
`allocatedFunds` to `releasedFunds`, and transfers exactly the prior
remainder; the guarded failures surface as `AlreadyRefunded`, `NotEligible`
and `NothingToRefund`. -/
theorem requestRefund_spec (w : AssetWorld) (caller now : Nat) (w2 : AssetWorld)
    (amt : Nat) :
    (requestRefund w caller now = Except.ok (w2, amt) ↔
      (caller = w.asset.donor ∧ w.asset.isRefunded = false ∧
        (w.asset.isFlagged = true ∨
          (w.asset.donorTimestamp + refundLockPeriod < now ∧
            w.asset.currentStage.toNat < Stage.Beneficiary.toNat)) ∧
        0 < w.asset.allocatedFunds - w.asset.releasedFunds ∧
        amt = w.asset.allocatedFunds - w.asset.releasedFunds ∧
        w2 = { w with
                asset := { w.asset with
                  isRefunded := true
                  allocatedFunds := w.asset.releasedFunds } }))
    ∧ (caller = w.asset.donor → w.asset.isRefunded = true →
        requestRefund w caller now = Except.error LedgerError.AlreadyRefunded)
    ∧ (caller = w.asset.donor → w.asset.isRefunded = false →
        ¬ (w.asset.isFlagged = true ∨
          (w.asset.donorTimestamp + refundLockPeriod < now ∧
            w.asset.currentStage.toNat < Stage.Beneficiary.toNat)) →
        requestRefund w caller now = Except.error LedgerError.NotEligible)
    ∧ (caller = w.asset.donor → w.asset.isRefunded = false →
        (w.asset.isFlagged = true ∨
          (w.asset.donorTimestamp + refundLockPeriod < now ∧
            w.asset.currentStage.toNat < Stage.Beneficiary.toNat)) →
        w.asset.allocatedFunds - w.asset.releasedFunds = 0 →
        requestRefund w caller now = Except.error LedgerError.NothingToRefund) := by
  refine ⟨requestRefund_ok_iff w caller now w2 amt, ?_, ?_, ?_⟩
  · intro hc hr
    simp only [requestRefund]
    rw [if_neg (fun hn => hn hc), if_pos hr]
  · intro hc hr hne
    simp only [requestRefund]
    rw [if_neg (fun hn => hn hc), if_neg (by simp [hr]), if_pos hne]
  · intro hc hr helig hzero
    simp only [requestRefund]
    rw [if_neg (fun hn => hn hc), if_neg (by simp [hr]),
      if_neg (not_not_intro helig), if_pos hzero]

/-- Witness for C3: the refund of the flagged `exWorldFlagged` succeeds with
the full remainder, and repeating it on the refunded state fails with
`AlreadyRefunded`. -/
theorem requestRefund_spec_witness :
    requestRefund exWorldFlagged 9 101 = Except.ok (exWorldRefunded, 1000) ∧
    requestRefund exWorldRefunded 9 101 = Except.error LedgerError.AlreadyRefunded :=
  ⟨(requestRefund_spec exWorldFlagged 9 101 exWorldRefunded 1000).1.mpr
      ⟨rfl, rfl, Or.inl rfl, by decide, by decide, by decide⟩,
    (requestRefund_spec exWorldRefunded 9 101 exWorldRefunded 1000).2.1 rfl rfl⟩

/-- Claim C4: a successful scan appends exactly one history entry whose
anomaly flag is the disjunction of the three checks (stage regression, exact
same location with a changed stage, Hub or Beneficiary with a zero photo
hash); the same flag drives auto-flagging; and regardless of the outcome the
scan counter increments and the current location and stage take the reported
values. -/
theorem scanAsset_anomaly_spec (w : AssetWorld) (scanner ts : Nat) (g : String)
    (st : Stage) (ph : Nat) (notes : String) (w2 : AssetWorld)
    (recs : List ReleaseRec)
    (h : scanAsset w true scanner ts g st ph notes = Except.ok (w2, recs)) :
    w2.history = w.history ++ [⟨ts, scanner, g, st, ph, scanAnomaly w.asset g st ph, notes⟩] ∧
    (scanAnomaly w.asset g st ph = true ↔
      (st.toNat < w.asset.currentStage.toNat ∨
        (w.asset.currentGeoTag = g ∧ st ≠ w.asset.currentStage) ∨
        ((st = Stage.Hub ∨ st = Stage.Beneficiary) ∧ ph = 0))) ∧
    w2.asset.isFlagged = scanAnomaly w.asset g st ph ∧
    w2.asset.scansCount = w.asset.scansCount + 1 ∧
    w2.asset.currentGeoTag = g ∧
    w2.asset.currentStage = st := by
  obtain ⟨-, hnf, hw2, -⟩ := scanAsset_ok _ _ _ _ _ _ _ _ _ _ h
  subst hw2
  refine ⟨by simp, scanAnomaly_iff w.asset g st ph, ?_, by simp, by simp, by simp⟩
  cases hano : scanAnomaly w.asset g st ph <;> simp [hano, hnf]

/-- Witness for C4: the regression scan on `exWorldReleased` that produced
`exWorldRegressed`. -/
theorem scanAsset_anomaly_spec_witness :
    exWorldRegressed.history = exWorldReleased.history ++
      [⟨300, 8, "g2", Stage.Warehouse, 0, scanAnomaly exWorldReleased.asset "g2" Stage.Warehouse 0, "n"⟩] ∧
    (scanAnomaly exWorldReleased.asset "g2" Stage.Warehouse 0 = true ↔
      (Stage.Warehouse.toNat < exWorldReleased.asset.currentStage.toNat ∨
        (exWorldReleased.asset.currentGeoTag = "g2" ∧
          Stage.Warehouse ≠ exWorldReleased.asset.currentStage) ∨
        ((Stage.Warehouse = Stage.Hub ∨ Stage.Warehouse = Stage.Beneficiary) ∧ 0 = 0))) ∧
    exWorldRegressed.asset.isFlagged = scanAnomaly exWorldReleased.asset "g2" Stage.Warehouse 0 ∧
    exWorldRegressed.asset.scansCount = exWorldReleased.asset.scansCount + 1 ∧
    exWorldRegressed.asset.currentGeoTag = "g2" ∧
    exWorldRegressed.asset.currentStage = Stage.Warehouse :=
  scanAsset_anomaly_spec exWorldReleased 8 300 "g2" Stage.Warehouse 0 "n"
    exWorldRegressed [] rfl

/-- A refunded asset whose escrow headroom is gone stays that way across any
single successful operation: `isRefunded` is never cleared, `allocatedFunds`
never rises above `releasedFunds` again (a scan's release loop is frozen, a
manual release only raises `releasedFunds`, and a second refund is rejected
by the `AlreadyRefunded` gate). -/
theorem lstep_preserves_frozen (w w2 : AssetWorld) (recs : List ReleaseRec)
    (h : LStep w recs w2) (href : w.asset.isRefunded = true)
    (hfr : w.asset.allocatedFunds ≤ w.asset.releasedFunds) :
    w2.asset.isRefunded = true ∧ w2.asset.allocatedFunds ≤ w2.asset.releasedFunds := by
  cases h with
  | scan sc scanner ts g st ph notes hok =>
    obtain ⟨-, -, hw2, -⟩ := scanAsset_ok _ _ _ _ _ _ _ _ _ _ hok
    subst hw2
    have hfz := releaseLoop_frozen w.asset.allocatedFunds st (w.asset.scansCount + 1)
      w.minScans w.asset.assignedNGO w.milestones w.asset.releasedFunds 0 hfr
    simp [hfz, href, hfr]
  | manual aud recipient amount hok =>
    obtain ⟨-, -, -, hw2⟩ := manualReleaseFunds_ok _ _ _ _ _ hok
    subst hw2
    refine ⟨by simpa using href, ?_⟩
    show w.asset.allocatedFunds ≤ w.asset.releasedFunds + amount
    omega
  | refund caller now amt hok =>
    obtain ⟨-, hnr, -⟩ := (requestRefund_ok_iff _ _ _ _ _).mp hok
    rw [href] at hnr
    simp at hnr
  | flag aud hok =>
    have hw2 := flagAsset_ok _ _ _ hok
    subst hw2
    exact ⟨by simpa using href, by simpa using hfr⟩
  | unflag aud hok =>
    have hw2 := unflagAsset_ok _ _ _ hok
    subst hw2
    exact ⟨by simpa using href, by simpa using hfr⟩
  | setMin adm n hok =>
    have hw2 := updateMinScans_ok _ _ _ _ hok
    subst hw2
    exact ⟨by simpa using href, by simpa using hfr⟩

/-- `lstep_preserves_frozen` extended over any sequence of successful
operations. -/
theorem steps_preserve_frozen (w w2 : AssetWorld) (h : Steps w w2) :
    w.asset.isRefunded = true → w.asset.allocatedFunds ≤ w.asset.releasedFunds →
    w2.asset.isRefunded = true ∧ w2.asset.allocatedFunds ≤ w2.asset.releasedFunds := by
  induction h with
  | refl w => exact fun h1 h2 => ⟨h1, h2⟩
  | step hstep hrest ih =>
    intro h1 h2
    obtain ⟨h3, h4⟩ := lstep_preserves_frozen _ _ _ hstep h1 h2
    exact ih h3 h4

/-- Claim C8: once `requestRefund` has succeeded on an asset, `isRefunded`
stays true and the escrow headroom stays zero across every later successful
operation; hence every subsequent successful scan — after any number of
intervening operations — leaves `releasedFunds` untouched, marks no
milestone released, and performs no payout (the scan itself may still
succeed). -/
theorem scan_after_refund_moves_no_funds (w : AssetWorld) (caller now : Nat)
    (w2 : AssetWorld) (amt : Nat)
    (href : requestRefund w caller now = Except.ok (w2, amt))
    (w3 : AssetWorld) (hsteps : Steps w2 w3)
    (sc : Bool) (scanner ts : Nat) (g : String) (st : Stage) (ph : Nat)
    (notes : String) (w4 : AssetWorld) (recs : List ReleaseRec)
    (hscan : scanAsset w3 sc scanner ts g st ph notes = Except.ok (w4, recs)) :
    w4.asset.releasedFunds = w3.asset.releasedFunds ∧
    w4.milestones = w3.milestones ∧ recs = [] := by
  obtain ⟨-, -, -, -, -, hw2⟩ := (requestRefund_ok_iff w caller now w2 amt).mp href
  subst hw2
  obtain ⟨-, hfr3⟩ := steps_preserve_frozen _ w3 hsteps rfl (Nat.le_refl _)
  obtain ⟨-, -, hw4, hrecs⟩ := scanAsset_ok _ _ _ _ _ _ _ _ _ _ hscan
  subst hw4
  subst hrecs
  have hfz := releaseLoop_frozen w3.asset.allocatedFunds st (w3.asset.scansCount + 1)
    w3.minScans w3.asset.assignedNGO w3.milestones w3.asset.releasedFunds 0 hfr3
  simp [hfz]

/-- Witness for C8: refund `exWorldReleased`, then scan once (an intervening
operation), then scan again — the second scan still moves no funds. -/
theorem scan_after_refund_moves_no_funds_witness :
    exWorldPostRefundScan2.asset.releasedFunds = exWorldPostRefundScan.asset.releasedFunds ∧
    exWorldPostRefundScan2.milestones = exWorldPostRefundScan.milestones ∧
    ([] : List ReleaseRec) = [] :=
  scan_after_refund_moves_no_funds exWorldReleased 9 2592101 exWorldPostRefund 600 rfl
    exWorldPostRefundScan
    (@Steps.step exWorldPostRefund exWorldPostRefundScan exWorldPostRefundScan []
      (@LStep.scan exWorldPostRefund exWorldPostRefundScan [] true 8 999 "g2"
        Stage.Beneficiary 77 "n" rfl)
      (Steps.refl exWorldPostRefundScan))
    true 8 1000 "g3" Stage.Beneficiary 77 "n" exWorldPostRefundScan2 [] rfl

/-- Counterexample to claim C9 as stated: the NGO running total and the
platform running total are updated after the external transfer (shown on a
successful concrete `manualReleaseFunds`, whose statement order is
`manualReleaseTrace`), so the transfer is not last among the required state
mutations even granting the milestone-mark exception. -/
theorem totals_update_follows_transfer :
    manualReleaseFunds exWorldReleased true 7 5 =
      Except.ok { exWorldReleased with
        asset := { exWorldReleased.asset with releasedFunds := 405 } } ∧
    transferLastExceptMark (manualReleaseTrace exWorldReleased.asset 7 5) = false :=
  ⟨rfl, rfl⟩

/-- Claim C9 (amended): in every value-moving operation the fund-accounting
mutation that removes the payout headroom (milestone mark plus
`releasedFunds` for milestone payouts, `releasedFunds` for manual release,
`isRefunded` plus `allocatedFunds` for refunds) is recorded immediately
before the external transfer; the NGO and platform totals of each payout are
recorded immediately after its transfer; and in `requestRefund` the transfer
is the final action of the operation. -/
theorem transfer_ordering_amended :
    (∀ a : Asset, mutationAfterTransfer (refundTrace a) = false ∧
      transfersGuarded (refundTrace a) = true)
    ∧ (∀ (a : Asset) (recipient amount : Nat),
      transfersGuarded (manualReleaseTrace a recipient amount) = true ∧
      totalsFollowTransfers (manualReleaseTrace a recipient amount) = true)
    ∧ (∀ recs : List ReleaseRec,
      transfersGuarded (milestoneReleaseTrace recs) = true ∧
      totalsFollowTransfers (milestoneReleaseTrace recs) = true) := by
  refine ⟨fun a => ⟨rfl, rfl⟩,
    fun a recipient amount =>
      ⟨rfl, by simp [manualReleaseTrace, totalsFollowTransfers]⟩,
    fun recs => ⟨?_, ?_⟩⟩
  · show transfersGuardedFrom none (milestoneReleaseTrace recs) = true
    have key : ∀ (rs : List ReleaseRec) (p : Option Event),
        transfersGuardedFrom p (milestoneReleaseTrace rs) = true := by
      intro rs
      induction rs with
      | nil => intro p; rfl
      | cons r rs ih =>
        intro p
        simp only [milestoneReleaseTrace, List.map_cons, List.flatten_cons, milestoneBlock,
          List.cons_append, List.nil_append, transfersGuardedFrom, Event.isTransfer,
          Event.isFundAccounting, Bool.not_false, Bool.true_and]
        exact ih (some (Event.addTotalFundsReleased r.amount))
    exact key recs none
  · induction recs with
    | nil => rfl
    | cons r rs ih =>
      simp only [milestoneReleaseTrace, List.map_cons, List.flatten_cons, milestoneBlock,
        List.cons_append, List.nil_append, totalsFollowTransfers]
      simpa [milestoneReleaseTrace] using ih

/-- Claim C10: `emergencyWithdraw` is gated on the default-admin role,
transfers the entire held balance to an arbitrary nonzero recipient, and
leaves every asset record, milestone list, scan log, NGO total and platform
total unchanged — so whenever the per-asset escrow sum matched the held
balance before the call, it no longer does afterwards. -/
theorem emergencyWithdraw_spec :
    (∀ (s : ContractState) (r : Nat) (s2 : ContractState) (amt : Nat),
      emergencyWithdraw s true r = Except.ok (s2, amt) →
      s2.assets = s.assets ∧ s2.milestonesMap = s.milestonesMap ∧
      s2.historyMap = s.historyMap ∧ s2.ngoTotals = s.ngoTotals ∧
      s2.totalAssetsTracked = s.totalAssetsTracked ∧
      s2.totalFundsAllocated = s.totalFundsAllocated ∧
      s2.totalFundsReleased = s.totalFundsReleased ∧
      amt = s.balance ∧ s2.balance = 0 ∧ 0 < s.balance ∧
      escrowSum s2 = escrowSum s ∧
      (escrowSum s = s.balance → escrowSum s2 ≠ s2.balance))
    ∧ (∀ (s : ContractState) (r : Nat),
      emergencyWithdraw s false r = Except.error LedgerError.Unauthorized) := by
  constructor
  · intro s r s2 amt h
    by_cases h2 : r = 0
    · simp only [emergencyWithdraw, if_neg (by decide : ¬(true = false)), if_pos h2] at h
      exact Except.noConfusion h
    · by_cases h3 : s.balance = 0
      · simp only [emergencyWithdraw, if_neg (by decide : ¬(true = false)), if_neg h2,
          if_pos h3] at h
        exact Except.noConfusion h
      · simp only [emergencyWithdraw, if_neg (by decide : ¬(true = false)), if_neg h2,
          if_neg h3] at h
        injection h with h4
        rw [Prod.mk.injEq] at h4
        obtain ⟨hs2, hamt⟩ := h4
        subst hs2
        refine ⟨rfl, rfl, rfl, rfl, rfl, rfl, rfl, hamt.symm, rfl, by omega, rfl, ?_⟩
        intro heq
        show escrowSum s ≠ 0
        omega
  · intro s r
    rfl

/-- Witness for C10: draining `exContract` (escrow sum 600, balance 600)
breaks the escrow-balance equality. -/
theorem emergencyWithdraw_spec_witness :
    escrowSum exContractDrained ≠ exContractDrained.balance :=
  (emergencyWithdraw_spec.1 exContract 7 exContractDrained 600 rfl).2.2.2.2.2.2.2.2.2.2.2
    (by decide)

/-- The two default percentages never overshoot: the floors of 40 and 60
percent of the allocation sum to at most the allocation. -/
theorem pct_split_le (alloc : Nat) : alloc * 40 / 100 + alloc * 60 / 100 ≤ alloc := by
  have h1 : alloc * 40 / 100 * 100 ≤ alloc * 40 := Nat.div_mul_le_self _ _
  have h2 : alloc * 60 / 100 * 100 ≤ alloc * 60 := Nat.div_mul_le_self _ _
  omega

/-- Symbolic evaluation of the release loop on the default milestones at
stage Hub, starting from zero released funds: only the Hub milestone fires,
for exactly `alloc * 40 / 100`, and only when that floor is positive. -/
theorem releaseLoop_hub (alloc scans minS ngo : Nat) (hmin : minS ≤ scans) :
    releaseLoop alloc Stage.Hub scans minS ngo 0 0 defaultMilestones =
      if 0 < alloc * 40 / 100
      then (alloc * 40 / 100,
        [⟨Stage.Hub, 40, true⟩, ⟨Stage.Beneficiary, 60, false⟩],
        [⟨0, ngo, alloc * 40 / 100, alloc * 40 / 100⟩])
      else (0, defaultMilestones, []) := by
  have h1 : alloc * 40 / 100 * 100 ≤ alloc * 40 := Nat.div_mul_le_self _ _
  have hcl : ¬ (alloc < alloc * 40 / 100) := by omega
  by_cases hp : 0 < alloc * 40 / 100
  · rw [if_pos hp]
    simp [releaseLoop, defaultMilestones, Stage.toNat, hmin, hcl, hp]
  · rw [if_neg hp]
    simp [releaseLoop, defaultMilestones, Stage.toNat, hmin, hcl, hp]

/-- Symbolic evaluation of the release loop at stage Beneficiary when the Hub
milestone is already released and `rel` funds are out: only the Beneficiary
milestone fires, for exactly `alloc * 60 / 100` (the clamp never reduces it
because the percentages cannot overshoot), and only when that floor is
positive. -/
theorem releaseLoop_ben_marked (alloc scans minS ngo rel : Nat) (hmin : minS ≤ scans)
    (hle : rel + alloc * 60 / 100 ≤ alloc) :
    releaseLoop alloc Stage.Beneficiary scans minS ngo rel 0
        [⟨Stage.Hub, 40, true⟩, ⟨Stage.Beneficiary, 60, false⟩] =
      if 0 < alloc * 60 / 100
      then (rel + alloc * 60 / 100,
        [⟨Stage.Hub, 40, true⟩, ⟨Stage.Beneficiary, 60, true⟩],
        [⟨1, ngo, alloc * 60 / 100, rel + alloc * 60 / 100⟩])
      else (rel, [⟨Stage.Hub, 40, true⟩, ⟨Stage.Beneficiary, 60, false⟩], []) := by
  have hcl : ¬ (alloc < rel + alloc * 60 / 100) := by omega
  by_cases hp : 0 < alloc * 60 / 100
  · rw [if_pos hp]
    simp [releaseLoop, Stage.toNat, hmin, hcl, hp]
  · rw [if_neg hp]
    simp [releaseLoop, Stage.toNat, hmin, hcl, hp]

/-- Symbolic evaluation of the release loop at stage Beneficiary when the 40
percent floor was zero (so the Hub milestone is still unreleased and nothing
is out): the Hub milestone is retried with amount zero and stays unreleased,
and the Beneficiary milestone fires for `alloc * 60 / 100` when positive. -/
theorem releaseLoop_ben_unmarked (alloc scans minS ngo : Nat) (hmin : minS ≤ scans)
    (h40 : alloc * 40 / 100 = 0) :
    releaseLoop alloc Stage.Beneficiary scans minS ngo 0 0 defaultMilestones =
      if 0 < alloc * 60 / 100
      then (alloc * 60 / 100,
        [⟨Stage.Hub, 40, false⟩, ⟨Stage.Beneficiary, 60, true⟩],
        [⟨1, ngo, alloc * 60 / 100, alloc * 60 / 100⟩])
      else (0, defaultMilestones, []) := by
  have h2 : alloc * 60 / 100 * 100 ≤ alloc * 60 := Nat.div_mul_le_self _ _
  have hcl : ¬ (alloc < alloc * 60 / 100) := by omega
  by_cases hp : 0 < alloc * 60 / 100
  · rw [if_pos hp]
    simp [releaseLoop, defaultMilestones, Stage.toNat, hmin, hcl, hp, h40]
  · rw [if_neg hp]
    simp [releaseLoop, defaultMilestones, Stage.toNat, hmin, hcl, hp, h40]

/-- If 40 percent of the allocation floors to something positive, so does 60
percent. -/
theorem floor60_pos_of_floor40_pos (F : Nat) (h : 0 < F * 40 / 100) :
    0 < F * 60 / 100 := by
  have h1 : 100 ≤ F * 40 := by
    by_contra hc
    push_neg at hc
    have : F * 40 / 100 = 0 := Nat.div_eq_of_lt hc
    omega
  have h2 : 1 * 100 ≤ F * 60 := by omega
  have := (Nat.le_div_iff_mul_le (by omega : 0 < 100)).mpr h2
  omega

/-- A scan is not anomalous when the stage does not regress, the location
changed, and a photo hash is supplied. -/
theorem scanAnomaly_false (a : Asset) (g : String) (st : Stage) (ph : Nat)
    (h1 : ¬ st.toNat < a.currentStage.toNat) (h2 : ¬ a.currentGeoTag = g)
    (h3 : ¬ ph = 0) : scanAnomaly a g st ph = false := by
  simp [scanAnomaly, h1, h2, h3]

/-- Claim C2: take an asset created with funding `F` (the uint256 bound keeps
the percentage arithmetic below `2^256`, where the embedding agrees with the
SafeMath semantics) under the default threshold 2.  A first non-anomalous
scan to Hub has `scansCount = 2 ≥` threshold and releases exactly
`F * 40 / 100` to the assigned NGO; a subsequent non-anomalous scan to
Beneficiary releases the clamped milestone amount, which equals
`F * 60 / 100` because `F*40/100 + F*60/100 ≤ F` — the clamp can never
overshoot the remainder — so `releasedFunds` ends at
`F*40/100 + F*60/100 ≤ F`; and in both scans a milestone is marked released
exactly when its (clamped) amount is strictly positive. -/
theorem default_milestone_payout_amounts
    (assetID : Nat) (description : String) (ngo : Nat) (g0 : String)
    (F donor ts : Nat) (w0 : AssetWorld)
    (hinit : initAsset assetID description ngo g0 F donor ts true 2 = Except.ok w0)
    (hFbound : F * 100 < 2 ^ 256)
    (scanner t1 t2 : Nat) (g1 g2 : String) (ph1 ph2 : Nat) (n1 n2 : String)
    (hg1 : ¬ g0 = g1) (hh1 : ¬ ph1 = 0) (hg2 : ¬ g1 = g2) (hh2 : ¬ ph2 = 0)
    (w1 : AssetWorld) (recs1 : List ReleaseRec)
    (hscan1 : scanAsset w0 true scanner t1 g1 Stage.Hub ph1 n1 = Except.ok (w1, recs1))
    (w2 : AssetWorld) (recs2 : List ReleaseRec)
    (hscan2 : scanAsset w1 true scanner t2 g2 Stage.Beneficiary ph2 n2 =
      Except.ok (w2, recs2)) :
    w1.asset.releasedFunds = F * 40 / 100 ∧
    recs1 = (if 0 < F * 40 / 100 then [⟨0, ngo, F * 40 / 100, F * 40 / 100⟩] else []) ∧
    w1.milestones.map Milestone.isReleased = [decide (0 < F * 40 / 100), false] ∧
    w2.asset.releasedFunds = F * 40 / 100 + F * 60 / 100 ∧
    recs2 = (if 0 < F * 60 / 100
      then [⟨1, ngo, F * 60 / 100, F * 40 / 100 + F * 60 / 100⟩] else []) ∧
    w2.milestones.map Milestone.isReleased =
      [decide (0 < F * 40 / 100), decide (0 < F * 60 / 100)] ∧
    F * 40 / 100 + F * 60 / 100 ≤ F := by
  have hsum := pct_split_le F
  obtain ⟨hw0, hF⟩ := initAsset_ok _ _ _ _ _ _ _ _ _ _ hinit
  subst hw0
  obtain ⟨-, -, hw1, hrecs1⟩ := scanAsset_ok _ _ _ _ _ _ _ _ _ _ hscan1
  by_cases hp1 : 0 < F * 40 / 100
  · have hp2 := floor60_pos_of_floor40_pos F hp1
    simp [scanAnomaly, Stage.toNat, hg1, hh1,
      releaseLoop_hub F 2 2 ngo (by omega), hp1] at hw1 hrecs1
    subst hw1
    obtain ⟨-, -, hw2, hrecs2⟩ := scanAsset_ok _ _ _ _ _ _ _ _ _ _ hscan2
    simp [scanAnomaly, Stage.toNat, hg2, hh2,
      releaseLoop_ben_marked F 3 2 ngo (F * 40 / 100) (by omega) (by omega), hp2]
      at hw2 hrecs2
    subst hw2
    simp [hrecs1, hrecs2, hp1, hp2, hsum]
  · have h40 : F * 40 / 100 = 0 := by omega
    simp [scanAnomaly, Stage.toNat, hg1, hh1,
      releaseLoop_hub F 2 2 ngo (by omega), hp1] at hw1 hrecs1
    subst hw1
    obtain ⟨-, -, hw2, hrecs2⟩ := scanAsset_ok _ _ _ _ _ _ _ _ _ _ hscan2
    by_cases hp2 : 0 < F * 60 / 100
    · simp [scanAnomaly, Stage.toNat, hg2, hh2,
        releaseLoop_ben_unmarked F 3 2 ngo (by omega) h40, hp2] at hw2 hrecs2
      subst hw2
      simp [hrecs1, hrecs2, hp1, hp2, h40, defaultMilestones]
      omega
    · simp [scanAnomaly, Stage.toNat, hg2, hh2,
        releaseLoop_ben_unmarked F 3 2 ngo (by omega) h40, hp2] at hw2 hrecs2
      subst hw2
      have h60 : F * 60 / 100 = 0 := by omega
      simp [hrecs1, hrecs2, hp1, hp2, h40, h60, defaultMilestones]

/-- Witness for C2 with `F = 1000`: the Hub scan releases 400 and the
Beneficiary scan releases 600. -/
theorem default_milestone_payout_amounts_witness :
    exWorldAfterHub.asset.releasedFunds = 1000 * 40 / 100 ∧
    [(⟨0, 5, 400, 400⟩ : ReleaseRec)] =
      (if 0 < 1000 * 40 / 100
        then [⟨0, 5, 1000 * 40 / 100, 1000 * 40 / 100⟩] else []) ∧
    exWorldAfterHub.milestones.map Milestone.isReleased =
      [decide (0 < 1000 * 40 / 100), false] ∧
    exWorldAfterBen.asset.releasedFunds = 1000 * 40 / 100 + 1000 * 60 / 100 ∧
    [(⟨1, 5, 600, 1000⟩ : ReleaseRec)] =
      (if 0 < 1000 * 60 / 100
        then [⟨1, 5, 1000 * 60 / 100, 1000 * 40 / 100 + 1000 * 60 / 100⟩] else []) ∧
    exWorldAfterBen.milestones.map Milestone.isReleased =
      [decide (0 < 1000 * 40 / 100), decide (0 < 1000 * 60 / 100)] ∧
    1000 * 40 / 100 + 1000 * 60 / 100 ≤ 1000 :=
  default_milestone_payout_amounts 1 "aid" 5 "g0" 1000 9 100 exWorld rfl (by decide)
    8 200 300 "g1" "g2" 77 77 "n" "n" (by decide) (by decide) (by decide) (by decide)
    exWorldAfterHub [⟨0, 5, 400, 400⟩] rfl exWorldAfterBen [⟨1, 5, 600, 1000⟩] rfl

end AidAuditor
